import Mathlib

/-!
Verification of the a2alite A2A server runtime.

This file gives a shallow embedding, in Lean, of the parts of the
TypeScript source that the checked properties talk about:

* the data model (`Task`, `Message`, `Artifact`, `TaskStatus`, `TaskState`)
  from `types/types.ts`;
* `AgentExecutionContext` (`server/agent/context.ts`);
* `AgentTaskStream` (`server/agent/stream.ts`);
* `InMemoryQueue` (`server/providers/queue/in_memory.ts`);
* `TaskStreamConsumer` / `TaskStreamManager`
  (`server/server/taskStreamConsumer.ts`);
* the request handlers of `A2AServer` (`server/server/server.ts`) and the
  JSON-RPC dispatch (`server/jsonRPC/jsonRpcServer.ts`).

Nondeterministic effects of the source are made explicit parameters:
`uuidv4()` results are passed in as `fresh` arguments and
`new Date().toISOString()` as a `now` argument.  Promise-based blocking
(queue dequeues, generator pumping) is modelled by running state machines
over explicit traces of events and actions, mirroring the single-threaded
cooperative scheduling that the runtime assumes.
-/

namespace A2ALite

/-- JavaScript string truthiness for optional strings: `undefined`, `null`
and the empty string are falsy.  Used to embed `a || b` chains on string
fields faithfully. -/
def jsTruthy : Option String → Option String
  | none => none
  | some s => if s = "" then none else some s

/-- Embedding of `a || b` on (optional) strings. -/
def jsOrS (a b : Option String) : Option String :=
  match jsTruthy a with
  | some s => some s
  | none => jsTruthy b

/-- Task states, from `types/types.ts`. -/
inductive TaskState where
  | submitted
  | working
  | inputRequired
  | authRequired
  | completed
  | canceled
  | failed
  | rejected
  | unknown
deriving DecidableEq, Repr

/-- `isFinalTaskState` from `server/agent/stream.ts`. -/
def isFinalTaskState : TaskState → Bool
  | .completed | .failed | .canceled | .rejected => true
  | _ => false

/-- `isPendingTaskState` from `server/agent/stream.ts`. -/
def isPendingTaskState : TaskState → Bool
  | .inputRequired | .authRequired => true
  | _ => false

/-- Message roles. -/
inductive Role where
  | user
  | agent
deriving DecidableEq, Repr

/-- Content parts; payloads abstracted to strings, which is enough for the
properties below (no claim inspects the inside of a part). -/
inductive ContentPart where
  | text (s : String)
  | file (f : String)
  | data (d : List (String × String))
deriving DecidableEq, Repr

/-- Opaque string-to-any mappings (`metadata` fields). -/
abbrev Metadata := List (String × String)

/-- `Message` from `types/types.ts`: the fields the runtime constructs and
reads.  Optional fields are `Option`s; the `kind: "message"` tag is
implicit in the type. -/
structure Message where
  messageId : String
  parts : List ContentPart
  metadata : Option Metadata
  role : Role
  contextId : Option String
  taskId : Option String
  referenceTaskIds : List String := []
deriving DecidableEq, Repr

/-- `Artifact` from `types/types.ts`. -/
structure Artifact where
  artifactId : String
  parts : List ContentPart
  metadata : Option Metadata := none
deriving DecidableEq, Repr

/-- `TaskStatus`: `state`, an ISO timestamp string, and an optional
status message. -/
structure TaskStatus where
  state : TaskState
  timestamp : String
  message : Option Message := none
deriving DecidableEq, Repr

/-- `Task` (the fields `_createOrUpdateTask` constructs; `kind: "task"` is
implicit in the type). -/
structure Task where
  id : String
  contextId : String
  artifacts : List Artifact
  status : TaskStatus
  metadata : Metadata
deriving DecidableEq, Repr

/-- `AgentMessageParams` from `server/agent/types.ts`. -/
structure AgentMessageParams where
  parts : List ContentPart
  metadata : Option Metadata := none
deriving DecidableEq, Repr

/-- `AgentTaskParams` from `server/agent/types.ts`. -/
structure AgentTaskParams where
  artifacts : Option (List Artifact) := none
  message : Option AgentMessageParams := none
  metadata : Option Metadata := none
deriving DecidableEq, Repr

/-- `MessageSendParams`: the inbound message (configuration elided). -/
structure MessageSendParams where
  message : Message
deriving DecidableEq, Repr

/-- `AgentRequest` from `server/agent/types.ts` (extension map elided). -/
structure AgentRequest where
  params : MessageSendParams
deriving DecidableEq, Repr

/-- `AgentExecutionContext` state (`server/agent/context.ts`): the context
id, the originating request, the current task and the reference tasks.
The stream-queue factory is kept out of the state; queues are modelled as
the explicit event lists of the streams built on them. -/
structure AgentExecutionContext where
  id : String
  request : AgentRequest
  currentTask : Option Task := none
  referenceTasks : Option (List Task) := none
deriving DecidableEq, Repr

namespace AgentExecutionContext

/-- `_createMessage` (context.ts lines 90-104): builds an agent-role
message carrying the context's id; the `taskId` field is added only when
the `taskId` argument is JS-truthy, and `messageId` falls back to a fresh
uuid (`fresh`). -/
def createMessage (cx : AgentExecutionContext) (messageParams : AgentMessageParams)
    (taskId : Option String) (messageId : Option String) (fresh : String) : Message :=
  { messageId := (jsTruthy messageId).getD fresh
    parts := messageParams.parts
    metadata := messageParams.metadata
    role := .agent
    contextId := some cx.id
    taskId := jsTruthy taskId }

/-- `_createStatus` (context.ts lines 113-119): a fresh status whose
`message` field is present only when the argument is. -/
def createStatus (state : TaskState) (message : Option Message) (now : String) :
    TaskStatus :=
  { state, timestamp := now, message }

/-- `_mergeArtifacts` (context.ts lines 121-126): concatenation. -/
def mergeArtifacts (existing newArtifacts : List Artifact) : List Artifact :=
  existing ++ newArtifacts

/-- The JS object spread `\x7b ...currentTask?.status, ...newStatus \x7d`
in `_createOrUpdateTask`: the new status always carries `state` and
`timestamp`, so those override; the `message` key is present on the new
status only when a status message was materialized, otherwise the old
`message` (if any) survives the spread. -/
def spreadStatus (old : Option TaskStatus) (fresh : TaskStatus) : TaskStatus :=
  { state := fresh.state
    timestamp := fresh.timestamp
    message := match fresh.message with
      | some m => some m
      | none => match old with
        | some o => o.message
        | none => none }

/-- `_createOrUpdateTask` (context.ts lines 128-157).  `freshTask` stands
for the `uuidv4()` used for a new task id, `freshMsg` for the one used for
the status message's id, `now` for `new Date().toISOString()`. -/
def createOrUpdateTask (cx : AgentExecutionContext)
    (taskParams : Option AgentTaskParams) (taskState : TaskState)
    (taskId : Option String) (now freshTask freshMsg : String) : Task :=
  let currentTask := cx.currentTask
  let id := (jsOrS (currentTask.map (·.id)) taskId).getD freshTask
  let artifacts := mergeArtifacts ((currentTask.map (·.artifacts)).getD [])
    ((taskParams.bind (·.artifacts)).getD [])
  let metadata := ((taskParams.bind (·.metadata)).orElse
    (fun _ => currentTask.map (·.metadata))).getD []
  let statusMessage := (taskParams.bind (·.message)).map
    (fun m => cx.createMessage m (some id) none freshMsg)
  let status := spreadStatus (currentTask.map (·.status))
    (createStatus taskState statusMessage now)
  { id, contextId := cx.id, artifacts, status, metadata }

/-- `setOrUpdateTask` (context.ts lines 166-174): builds the task and
installs it as the context's current task. -/
def setOrUpdateTask (cx : AgentExecutionContext)
    (taskParams : Option AgentTaskParams) (taskState : TaskState)
    (taskId : Option String) (now freshTask freshMsg : String) :
    Task × AgentExecutionContext :=
  let task := cx.createOrUpdateTask taskParams taskState taskId now freshTask freshMsg
  (task, { cx with currentTask := some task })

/-- `message` (context.ts lines 251-254): note that the source passes its
`messageId` parameter into `_createMessage`'s second positional slot,
which is `taskId`; no task id from the current task is ever attached. -/
def message (cx : AgentExecutionContext) (messageParams : AgentMessageParams)
    (messageId : Option String) (fresh : String) : Message :=
  cx.createMessage messageParams messageId none fresh

end AgentExecutionContext

/-! ## Stream events and the Task Stream (`server/agent/stream.ts`) -/

/-- `AgentStreamEvent`: the events an `AgentTaskStream` enqueues.  The
`end-of-stream` sentinel carries optional ids as in
`server/agent/types.ts`. -/
inductive StreamEvent where
  | statusUpdate (taskId : String) (final : Bool) (contextId : String)
      (status : TaskStatus)
  | artifactUpdate (taskId contextId : String) (artifact : Artifact)
      (append lastChunk : Bool) (metadata : Option Metadata)
  | endOfStream (taskId contextId : Option String)
deriving DecidableEq, Repr

/-- `isEndOfStream` from `server/agent/stream.ts`. -/
def isEndOfStream : StreamEvent → Bool
  | .endOfStream _ _ => true
  | _ => false

/-- Recognizer for artifact-update events (used to state C7). -/
def isArtifactUpdateEvent : StreamEvent → Bool
  | .artifactUpdate _ _ _ _ _ _ => true
  | _ => false

/-- Recognizer for status-update events (used to state C7). -/
def isStatusUpdateEvent : StreamEvent → Bool
  | .statusUpdate _ _ _ _ => true
  | _ => false

/-- `AgentArtifactParams` from `server/agent/types.ts`. -/
structure AgentArtifactParams where
  artifact : Artifact
  append : Bool := false
  lastChunk : Bool := false
deriving DecidableEq, Repr

/-- `AgentTaskStream` state (`server/agent/stream.ts`): the `closed` flag,
the owning execution context, and the stream queue, modelled as the list
of events enqueued so far (FIFO, oldest first). -/
structure AgentTaskStream where
  closed : Bool := false
  cx : AgentExecutionContext
  streamQueue : List StreamEvent := []
deriving DecidableEq, Repr

namespace AgentTaskStream

/-- `getTask` (stream.ts lines 209-214): the context's current task, or
an error when there is none. -/
def getTask (s : AgentTaskStream) : Except String Task :=
  match s.cx.currentTask with
  | none => .error "No task found"
  | some t => .ok t

/-- `_terminateIfPendingOrFinalState` (stream.ts lines 155-171): when the
current task is in a pending or final state, mark the stream closed and
enqueue the end-of-stream sentinel. -/
def terminateIfPendingOrFinalState (s : AgentTaskStream) : AgentTaskStream :=
  match s.cx.currentTask with
  | some task =>
    if isPendingTaskState task.status.state || isFinalTaskState task.status.state then
      { s with
        closed := true
        streamQueue := s.streamQueue ++
          [.endOfStream (some task.id) (some task.contextId)] }
    else s
  | none => s

/-- `_sendTaskStatusUpdate` (stream.ts lines 188-201): enqueue a
status-update for the current task (no-op when there is none); `final` is
set exactly when the state is final. -/
def sendTaskStatusUpdate (s : AgentTaskStream) : AgentTaskStream :=
  match s.cx.currentTask with
  | some task =>
    { s with streamQueue := s.streamQueue ++
        [.statusUpdate task.id (isFinalTaskState task.status.state)
          task.contextId task.status] }
  | none => s

/-- `_ensureOpen` (stream.ts lines 178-182). -/
def ensureOpen (s : AgentTaskStream) : Except String Unit :=
  if s.closed then .error "Task stream already terminated." else .ok ()

/-- `writeArtifact` (stream.ts lines 229-261).  Requires an open stream
and a current task; moves the task to `working` when it is not already
(emitting a status-update when `sendTaskStatusUpdateFlag` is set), always
enqueues one artifact-update, then applies the terminate check.  Note the
source captures `task` before the state change, so the artifact-update's
`taskId` comes from the pre-transition task and its `contextId` from the
context. -/
def writeArtifact (s : AgentTaskStream) (params : AgentArtifactParams)
    (sendTaskStatusUpdateFlag : Bool) (now freshTask freshMsg : String) :
    Except String AgentTaskStream := do
  let _ ← s.ensureOpen
  match s.cx.currentTask with
  | none => .error "No task find to stream artifacts to"
  | some task => do
    let s : AgentTaskStream ←
      if task.status.state ≠ .working then do
        let cx' := (s.cx.setOrUpdateTask (some {}) .working none now freshTask freshMsg).2
        let s := { s with cx := cx' }
        pure (if sendTaskStatusUpdateFlag then s.sendTaskStatusUpdate else s)
      else
        pure s
    let s := { s with streamQueue := s.streamQueue ++
      [StreamEvent.artifactUpdate task.id s.cx.id params.artifact params.append
        params.lastChunk params.artifact.metadata] }
    pure s.terminateIfPendingOrFinalState

/-- Common body of the terminal/pending producers `complete`, `reject`,
`authRequired` and `inputRequired` (stream.ts lines 312-372): ensure
open, transition the task, enqueue the status-update, then apply the
terminate check. -/
def transitionAndSend (s : AgentTaskStream) (taskParams : AgentTaskParams)
    (state : TaskState) (now freshTask freshMsg : String) :
    Except String AgentTaskStream := do
  let _ ← s.ensureOpen
  let cx' := (s.cx.setOrUpdateTask (some taskParams) state none now freshTask freshMsg).2
  let s := { s with cx := cx' }
  pure s.sendTaskStatusUpdate.terminateIfPendingOrFinalState

/-- `complete` (stream.ts lines 363-372). -/
def complete (s : AgentTaskStream) (taskParams : AgentTaskParams)
    (now freshTask freshMsg : String) : Except String AgentTaskStream :=
  s.transitionAndSend taskParams .completed now freshTask freshMsg

/-- `reject` (stream.ts lines 312-322). -/
def reject (s : AgentTaskStream) (taskParams : AgentTaskParams)
    (now freshTask freshMsg : String) : Except String AgentTaskStream :=
  s.transitionAndSend taskParams .rejected now freshTask freshMsg

/-- `authRequired` (stream.ts lines 329-339). -/
def authRequired (s : AgentTaskStream) (taskParams : AgentTaskParams)
    (now freshTask freshMsg : String) : Except String AgentTaskStream :=
  s.transitionAndSend taskParams .authRequired now freshTask freshMsg

/-- `inputRequired` (stream.ts lines 346-356). -/
def inputRequired (s : AgentTaskStream) (taskParams : AgentTaskParams)
    (now freshTask freshMsg : String) : Except String AgentTaskStream :=
  s.transitionAndSend taskParams .inputRequired now freshTask freshMsg

/-- `start` (stream.ts lines 291-305): ensure open and a task; move to
`working` with a status-update when not already `working`; terminate
check. -/
def start (s : AgentTaskStream) (taskParams : AgentTaskParams)
    (now freshTask freshMsg : String) : Except String AgentTaskStream := do
  let _ ← s.ensureOpen
  match s.cx.currentTask with
  | none => .error "No task find to stream artifacts to"
  | some task => do
    let s ←
      if task.status.state ≠ .working then do
        let cx' := (s.cx.setOrUpdateTask (some taskParams) .working none now freshTask freshMsg).2
        pure ({ s with cx := cx' }).sendTaskStatusUpdate
      else
        pure s
    pure s.terminateIfPendingOrFinalState

end AgentTaskStream

/-- The producer operations of a Task Stream, as one inductive so that
quantifying over "any producer call" is possible. -/
inductive ProducerOp where
  | writeArtifact (params : AgentArtifactParams) (sendStatus : Bool)
  | start (taskParams : AgentTaskParams)
  | complete (taskParams : AgentTaskParams)
  | reject (taskParams : AgentTaskParams)
  | authRequired (taskParams : AgentTaskParams)
  | inputRequired (taskParams : AgentTaskParams)
deriving DecidableEq, Repr

/-- Run one producer operation on a stream. -/
def runProducerOp (op : ProducerOp) (s : AgentTaskStream)
    (now freshTask freshMsg : String) : Except String AgentTaskStream :=
  match op with
  | .writeArtifact params sendStatus =>
      s.writeArtifact params sendStatus now freshTask freshMsg
  | .start p => s.start p now freshTask freshMsg
  | .complete p => s.complete p now freshTask freshMsg
  | .reject p => s.reject p now freshTask freshMsg
  | .authRequired p => s.authRequired p now freshTask freshMsg
  | .inputRequired p => s.inputRequired p now freshTask freshMsg

/-! ## In-memory event queue (`server/providers/queue/in_memory.ts`)

Pending dequeue promises are modelled by waiter ids (`Nat`) kept in FIFO
order; an operation returns, besides the new queue state, the list of
resolutions it performs: pairs of a waiter id and the value (some item,
or `none` for "no event") its promise is resolved with. -/

/-- `InMemoryQueue` state: the item buffer, the closed flag and the
pending dequeue resolvers (waiter ids, FIFO). -/
structure InMemoryQueue (T : Type) where
  items : List T := []
  isClosed : Bool := false
  pendingDequeuePromises : List Nat := []
deriving DecidableEq, Repr

namespace InMemoryQueue

/-- Outcome of a `dequeue` call. -/
inductive DequeueOutcome (T : Type) where
  /-- The call returned immediately with no item (queue closed). -/
  | returnedNone
  /-- The call returned an item immediately. -/
  | returnedItem (t : T)
  /-- The call blocked: its resolver was pushed onto the pending list. -/
  | blocked
deriving DecidableEq, Repr

/-- `dequeue` (in_memory.ts lines 20-32), called by waiter `wid`: when
closed return undefined; when empty, block and register the resolver;
otherwise shift and return the first item. -/
def dequeue (q : InMemoryQueue T) (wid : Nat) :
    InMemoryQueue T × DequeueOutcome T :=
  if q.isClosed then (q, .returnedNone)
  else match q.items with
    | [] => ({ q with pendingDequeuePromises := q.pendingDequeuePromises ++ [wid] },
        .blocked)
    | t :: rest => ({ q with items := rest }, .returnedItem t)

/-- The loop of `resolvePendingPromises` (in_memory.ts lines 45-51):
while there are both pending resolvers and items, shift one of each and
resolve the promise with the item. -/
def resolvePendingLoop : List Nat → List T → List Nat × List T × List (Nat × Option T)
  | wid :: ws, t :: ts =>
      let (ws', ts', rs) := resolvePendingLoop ws ts
      (ws', ts', (wid, some t) :: rs)
  | ws, ts => (ws, ts, [])

/-- `enqueue` (in_memory.ts lines 34-39): push the item unconditionally
(note: the source has no closed-check here), then resolve pending
promises. -/
def enqueue (q : InMemoryQueue T) (item : T) :
    InMemoryQueue T × List (Nat × Option T) :=
  let items := q.items ++ [item]
  let (ws, ts, rs) := resolvePendingLoop q.pendingDequeuePromises items
  ({ q with items := ts, pendingDequeuePromises := ws }, rs)

/-- `close` (in_memory.ts lines 70-79): clear items, resolve every
pending promise with undefined, clear the pending list, set the closed
flag. -/
def close (q : InMemoryQueue T) : InMemoryQueue T × List (Nat × Option T) :=
  ({ items := [], isClosed := true, pendingDequeuePromises := [] },
    q.pendingDequeuePromises.map (fun wid => (wid, none)))

end InMemoryQueue

/-! ## Stream consumer and manager (`server/server/taskStreamConsumer.ts`)

A tapper (one `tap()` generator) is modelled by its local buffer, a flag
saying whether a waiter (its `resolve` slot) is currently registered, the
events already handed to a resolved waiter, and whether it has been woken
with "no event".  What a tapper receives overall is its `delivered`
events followed by its `buffer` (the tap loop yields buffered events in
FIFO order before suspending again).

The consumer loop is modelled as a state machine over an explicit trace
of actions: either the arrival of the next event from the task's queue,
or the registration of a new tapper (`tap()` adding itself to the tapper
set).  This mirrors the source's single-threaded interleaving of
`consume()` iterations with `tap()` registrations. -/

/-- One tapper's state (`Tapper` in taskStreamConsumer.ts, extended with
the ghost fields `delivered` and `gotNone` that record what its promises
were resolved with). -/
structure Tapper where
  buffer : List StreamEvent := []
  waiting : Bool := false
  delivered : List StreamEvent := []
  gotNone : Bool := false
deriving DecidableEq, Repr

namespace Tapper

/-- Everything a tapper receives: events resolved directly to its waiter,
followed by the events parked in its buffer (yielded FIFO by the tap
loop). -/
def received (t : Tapper) : List StreamEvent :=
  t.delivered ++ t.buffer

/-- The broadcast step of `consume()` (taskStreamConsumer.ts lines
105-112) for one tapper: resolve its waiter when one is registered, else
append to its buffer. -/
def broadcast (e : StreamEvent) (t : Tapper) : Tapper :=
  if t.waiting then
    { t with delivered := t.delivered ++ [e], waiting := false }
  else
    { t with buffer := t.buffer ++ [e] }

/-- The cleanup step of `consume()`'s `finally` block (lines 117-124) for
one tapper: a registered waiter is resolved with undefined. -/
def wake (t : Tapper) : Tapper :=
  if t.waiting then { t with waiting := false, gotNone := true } else t

end Tapper

/-- An action interleaved with the consumer loop: the queue delivering
the next event, or a new tapper registering (identified by `tid`, with
the waiting state its generator is currently in). -/
inductive ConsumerAction where
  | deliver (e : StreamEvent)
  | tapJoin (tid : Nat)
deriving DecidableEq, Repr

/-- The events the consumer loop broadcasts for a given action trace: all
delivered events up to (excluding) the first end-of-stream sentinel. -/
def broadcastEvents : List ConsumerAction → List StreamEvent
  | [] => []
  | .deliver e :: rest =>
      if isEndOfStream e then [] else e :: broadcastEvents rest
  | .tapJoin _ :: rest => broadcastEvents rest

/-- The consumer loop of `consume()` (taskStreamConsumer.ts lines 86-126)
run over an action trace, starting from a tapper set `ts` (an association
list keyed by tapper id, insertion ordered like the source's `Set`).
Returns the events yielded to the primary consumer and the final tapper
states after the `finally` block has woken registered waiters (the ghost
of the set that the source then clears).  An exhausted trace stands for
the queue closing (`dequeue` returning undefined), which exits the loop
just as the sentinel does. -/
def runConsume : List ConsumerAction → List (Nat × Tapper) →
    List StreamEvent × List (Nat × Tapper)
  | [], ts => ([], ts.map (fun p => (p.1, p.2.wake)))
  | .deliver e :: rest, ts =>
      if isEndOfStream e then ([], ts.map (fun p => (p.1, p.2.wake)))
      else
        let ts' := ts.map (fun p => (p.1, p.2.broadcast e))
        let (ys, fin) := runConsume rest ts'
        (e :: ys, fin)
  | .tapJoin tid :: rest, ts =>
      runConsume rest (ts ++ [(tid, { waiting := true })])

/-- `TaskStreamConsumer` state: tapper set and the `consuming` /
`finished` flags. -/
structure ConsumerState where
  tappers : List (Nat × Tapper) := []
  consuming : Bool := false
  finished : Bool := false
deriving DecidableEq, Repr

/-- A whole `consume()` call (taskStreamConsumer.ts lines 79-127) over an
action trace: a no-op when already consuming or finished; otherwise run
the loop, then set `finished`, wake and clear the tappers.  The third
component is the ghost list of final tapper states (just before the set
is cleared). -/
def TaskStreamConsumer.consume (st : ConsumerState) (acts : List ConsumerAction) :
    ConsumerState × List StreamEvent × List (Nat × Tapper) :=
  if st.consuming || st.finished then (st, [], [])
  else
    let (ys, fin) := runConsume acts st.tappers
    ({ tappers := [], consuming := false, finished := true }, ys, fin)

/-- `TaskStreamManager` (taskStreamConsumer.ts lines 130-183): a map from
task id to consumer state. -/
structure TaskStreamManager where
  consumers : List (String × ConsumerState) := []
deriving DecidableEq, Repr

namespace TaskStreamManager

/-- `getConsumer`. -/
def getConsumer (m : TaskStreamManager) (taskId : String) : Option ConsumerState :=
  (m.consumers.find? (fun p => p.1 = taskId)).map (·.2)

/-- `createConsumer` (lines 138-155): error when one exists, else insert
a fresh consumer for the stream's task id. -/
def createConsumer (m : TaskStreamManager) (taskId : String) :
    Except String TaskStreamManager :=
  match m.getConsumer taskId with
  | some _ => .error ("Stream for task " ++ taskId ++ " is already being consumed")
  | none => .ok { consumers := m.consumers ++ [(taskId, {})] }

end TaskStreamManager

/-! ## JSON-RPC layer and request handlers
(`server/jsonRPC/jsonRpcServer.ts`, `server/server/server.ts`,
`utils/errors.ts`) -/

/-- A JSON-RPC error object. -/
structure JSONRPCError where
  code : Int
  message : String
deriving DecidableEq, Repr

/-- `taskNotFoundError` from `utils/errors.ts` (code -32001). -/
def taskNotFoundError (msg : String) : JSONRPCError :=
  { code := -32001, message := msg }

/-- `invalidAgentResponseError` from `utils/errors.ts` (code -32006); the
default message is used when the thrown value carries none. -/
def invalidAgentResponseError (msg : Option String) : JSONRPCError :=
  { code := -32006, message := msg.getD "Invalid agent response" }

/-- The inline MethodNotFound error of `JSONRPCServer.handleRequest`
(jsonRpcServer.ts lines 82-87, code -32601). -/
def methodNotFoundResponseError : JSONRPCError :=
  { code := -32601, message := "Method not found" }

/-- A JSON-RPC result payload as produced by the handlers: a task, a
message, or a forwarded stream event. -/
inductive RpcResult where
  | task (t : Task)
  | message (m : Message)
  | event (e : StreamEvent)
deriving DecidableEq, Repr

/-- A JSON-RPC response (`jsonrpc: "2.0"` implicit): exactly one of
`result` / `error` is set by every construction site in the source. -/
structure JSONRPCResponse where
  id : String
  result : Option RpcResult := none
  error : Option JSONRPCError := none
deriving DecidableEq, Repr

/-- The method names registered by `A2AServer.registerHandlers`
(server.ts lines 570-648), in registration order.  Note: `tasks/get` is
not among them. -/
def registeredMethods : List String :=
  ["message/send", "message/stream", "tasks/cancel",
   "tasks/pushNotificationConfig/set", "tasks/pushNotificationConfig/get",
   "tasks/resubscribe"]

/-- Outcome of `JSONRPCServer.handleRequest`: either an immediate
response (the no-handler case), or dispatch to the registered handler of
the method. -/
inductive DispatchOutcome where
  | response (r : JSONRPCResponse)
  | dispatched (method : String)
deriving DecidableEq, Repr

/-- `JSONRPCServer.handleRequest` (jsonRpcServer.ts lines 69-105): look
the method up in the handler map; with no handler, answer MethodNotFound;
otherwise run that handler. -/
def jsonRpcHandleRequest (handlers : List String) (method reqId : String) :
    DispatchOutcome :=
  if handlers.contains method then .dispatched method
  else .response { id := reqId, error := some methodNotFoundResponseError }

/-- `StreamResult` from `server/agent/types.ts`. -/
structure StreamResult where
  taskStream : AgentTaskStream
  currentTask : Task
deriving DecidableEq, Repr

/-- The `result.kind === "stream"` branch of `_handleMessageSend`
(server.ts lines 211-241), together with the surrounding `catch` (lines
247-257): verify that the stream's task matches `currentTask` (a
mismatch, or a missing task in `getTask`, throws and is caught as an
InvalidAgentResponse error); then, when no consumer exists for the task
id, create one and call `consumer.consume()`; respond with the initial
Task.  Note that `consume()` is an async generator (taskStreamConsumer.ts
line 79): the bare call at server.ts line 232 only *creates* a generator
and discards it, and nothing on this path ever iterates it, so none of
its body runs — the registered consumer stays in its initial state
(`consuming = false`, `finished = false`) and no queue event is ever
dequeued on this path.  A driven run of the generator (what
`message/stream`'s `for await` performs) is modelled separately by
`TaskStreamConsumer.consume`.  Returns the JSON-RPC response and the
updated manager. -/
def handleMessageSendStreamResult (reqId : String) (mgr : TaskStreamManager)
    (res : StreamResult) : JSONRPCResponse × TaskStreamManager :=
  match res.taskStream.getTask with
  | .error e =>
      ({ id := reqId, error := some (invalidAgentResponseError (some e)) }, mgr)
  | .ok streamTask =>
    if streamTask.id ≠ res.currentTask.id ∨
        streamTask.contextId ≠ res.currentTask.contextId then
      ({ id := reqId,
         error := some (invalidAgentResponseError
           (some "Task mismatch. The task in stream does not match the current task")) },
        mgr)
    else
      match mgr.getConsumer streamTask.id with
      | some _ =>
          ({ id := reqId, result := some (.task res.currentTask) }, mgr)
      | none =>
          ({ id := reqId, result := some (.task res.currentTask) },
            { consumers := mgr.consumers ++ [(streamTask.id, {})] })

/-- The events a fresh tapper (id `tid`) receives when registering on an
ongoing consumer run driven by the action trace `acts`
(`TaskStreamConsumer.tap`, taskStreamConsumer.ts lines 44-74): it is
added to the tapper set and collects what the run resolves to it or parks
in its buffer. -/
def runTap (c : ConsumerState) (tid : Nat) (acts : List ConsumerAction) :
    List StreamEvent :=
  let (_, fin) := runConsume acts (c.tappers ++ [(tid, { waiting := true })])
  match fin.find? (fun p => p.1 = tid) with
  | some p => p.2.received
  | none => []

/-- The `result.kind === "stream"` branch of `_handleMessageStream`
(server.ts lines 304-329): yield the initial Task frame, then
`tapOrConsume` — tap when a consumer exists for the stream's task id,
else create a consumer and consume — forwarding every event as a result
frame.  There is no task-mismatch verification on this path.  The run is
driven by the action trace `acts`; `tid` is the id given to the tapper in
the tap case.  If `getTask` throws inside `tapOrConsume`, the `catch`
(lines 330-340) yields an error frame after the initial frame. -/
def handleMessageStreamStreamResult (reqId : String) (mgr : TaskStreamManager)
    (res : StreamResult) (acts : List ConsumerAction) (tid : Nat) :
    List JSONRPCResponse × TaskStreamManager :=
  match res.taskStream.getTask with
  | .error e =>
      ([{ id := reqId, result := some (.task res.currentTask) },
        { id := reqId, error := some (invalidAgentResponseError (some e)) }], mgr)
  | .ok streamTask =>
    let initialFrame : JSONRPCResponse :=
      { id := reqId, result := some (.task res.currentTask) }
    match mgr.getConsumer streamTask.id with
    | some c =>
        (initialFrame ::
          (runTap c tid acts).map
            (fun e => { id := reqId, result := some (.event e) }), mgr)
    | none =>
        let mgr' : TaskStreamManager :=
          { consumers := mgr.consumers ++ [(streamTask.id, {})] }
        let (_, ys, _) := TaskStreamConsumer.consume {} acts
        (initialFrame ::
          ys.map (fun e => { id := reqId, result := some (.event e) }), mgr')

/-! ## Concrete fixtures used by counterexamples and witnesses -/

/-- An inbound user message. -/
def exInboundMessage : Message :=
  { messageId := "m0", parts := [], metadata := none, role := .user,
    contextId := none, taskId := none }

/-- An inbound request. -/
def exRequest : AgentRequest := { params := { message := exInboundMessage } }

/-- A status message sitting on an existing task. -/
def exStatusMsg : Message :=
  { messageId := "sm1", parts := [ContentPart.text "how many?"], metadata := none,
    role := .agent, contextId := some "ctx-1", taskId := some "task-1" }

/-- An existing task in `working` state whose status carries a message. -/
def exTaskWorking : Task :=
  { id := "task-1", contextId := "ctx-1", artifacts := []
    status := { state := .working, timestamp := "2025-01-01T00:00:00Z",
                message := some exStatusMsg }
    metadata := [] }

/-- A context whose current task is `exTaskWorking`. -/
def exContext : AgentExecutionContext :=
  { id := "ctx-1", request := exRequest, currentTask := some exTaskWorking }

/-- A fresh context with no current task. -/
def exContextFresh : AgentExecutionContext :=
  { id := "ctx-2", request := exRequest, currentTask := none }

/-- A first artifact. -/
def exArtifactA : Artifact := { artifactId := "a1", parts := [ContentPart.text "A"] }

/-- A second artifact. -/
def exArtifactB : Artifact := { artifactId := "b1", parts := [ContentPart.text "B"] }

/-! ## C2 — `context.message` and task-id inheritance -/

/-- Claim C2 counterexample: on `exContext` the current task is
`exTaskWorking`, yet the Message returned by `context.message(params)`
carries no `taskId` at all — the source's `message` passes its optional
second argument into `_createMessage`'s `taskId` slot and never consults
`currentTask`, so `taskId` is not the current task's id even though a
current task exists at call time. -/
theorem c2_counterexample :
    exContext.currentTask = some exTaskWorking ∧
    (exContext.message { parts := [] } none "m-77").taskId = none ∧
    (exContext.message { parts := [] } none "m-77").taskId ≠ some exTaskWorking.id := by
  refine ⟨rfl, rfl, ?_⟩
  simp [AgentExecutionContext.message, AgentExecutionContext.createMessage, jsTruthy]

/-- Claim C2, amended: a Message produced by `context.message(params)`
has role agent and `contextId` equal to the context's id, and never
carries a `taskId` field — also when a current task exists at call
time. -/
theorem c2_message_fields (cx : AgentExecutionContext) (p : AgentMessageParams)
    (fresh : String) :
    (cx.message p none fresh).role = .agent ∧
    (cx.message p none fresh).contextId = some cx.id ∧
    (cx.message p none fresh).taskId = none :=
  ⟨rfl, rfl, rfl⟩

/-! ## C3 — status replacement on `setOrUpdateTask` -/

/-- Claim C3 counterexample: updating `exContext` (whose task's status
carries `exStatusMsg`) with params that carry no message still leaves the
previous `status.message` on the new status — the source spreads the old
status under the new one, and `_createStatus` omits the `message` key when
no new message is materialized, so the old one survives.  The claim's
"no field of the previous status survives" is therefore false here. -/
theorem c3_counterexample :
    exContext.currentTask = some exTaskWorking ∧
    exTaskWorking.status.message = some exStatusMsg ∧
    ((exContext.setOrUpdateTask none .completed none "T1" "f1" "f2").1).status.message
      = some exStatusMsg := by
  refine ⟨rfl, rfl, ?_⟩
  rfl

/-- Claim C3, amended: on every `setOrUpdateTask` transition the new
status carries the new state and the freshly generated timestamp; its
`message` is the newly materialized message when the incoming params
carry one, and otherwise the previous status's message (if any), which
survives the spread of the old status under the new one. -/
theorem c3_status_replacement (cx : AgentExecutionContext)
    (p : Option AgentTaskParams) (st : TaskState) (tid : Option String)
    (now fT fM : String) :
    ((cx.setOrUpdateTask p st tid now fT fM).1.status.state = st) ∧
    ((cx.setOrUpdateTask p st tid now fT fM).1.status.timestamp = now) ∧
    ((cx.setOrUpdateTask p st tid now fT fM).1.status.message =
      match p.bind (·.message) with
      | some mp => some (cx.createMessage mp
          (some (cx.setOrUpdateTask p st tid now fT fM).1.id) none fM)
      | none => cx.currentTask.bind (fun t => t.status.message)) := by
  refine ⟨rfl, rfl, ?_⟩
  cases hm : p.bind (·.message) with
  | none =>
    cases hc : cx.currentTask <;>
      simp [AgentExecutionContext.setOrUpdateTask,
        AgentExecutionContext.createOrUpdateTask,
        AgentExecutionContext.spreadStatus,
        AgentExecutionContext.createStatus, hm, hc]
  | some mp =>
    simp [AgentExecutionContext.setOrUpdateTask,
      AgentExecutionContext.createOrUpdateTask,
      AgentExecutionContext.spreadStatus,
      AgentExecutionContext.createStatus, hm]

/-! ## C8 — artifact concatenation across two `setOrUpdateTask` calls -/

/-- Claim C8: starting from a context with no current task, two
successive `setOrUpdateTask` calls whose params carry artifact lists A
and B leave the task's `artifacts` equal to `A ++ B`, in order. -/
theorem c8_artifact_concat (cx : AgentExecutionContext)
    (p1 p2 : AgentTaskParams) (A B : List Artifact)
    (s1 s2 : TaskState) (tid1 tid2 : Option String)
    (n1 n2 f1 f2 g1 g2 : String)
    (hfresh : cx.currentTask = none)
    (hA : p1.artifacts = some A) (hB : p2.artifacts = some B) :
    (((cx.setOrUpdateTask (some p1) s1 tid1 n1 f1 g1).2).setOrUpdateTask
        (some p2) s2 tid2 n2 f2 g2).1.artifacts = A ++ B := by
  simp [AgentExecutionContext.setOrUpdateTask,
    AgentExecutionContext.createOrUpdateTask,
    AgentExecutionContext.mergeArtifacts, hfresh, hA, hB]

/-- Witness for C8 at a concrete fresh context and concrete artifact
lists. -/
theorem c8_artifact_concat_witness :
    (((exContextFresh.setOrUpdateTask
          (some { artifacts := some [exArtifactA] }) .working none "t1" "f1" "g1").2).setOrUpdateTask
        (some { artifacts := some [exArtifactB] }) .completed none "t2" "f2" "g2").1.artifacts
      = [exArtifactA] ++ [exArtifactB] :=
  c8_artifact_concat exContextFresh _ _ [exArtifactA] [exArtifactB] _ _ _ _
    _ _ _ _ _ _ rfl rfl rfl

/-! ## C4 — in-memory queue close semantics -/

/-- Claim C4 counterexample: on the closed empty queue, `enqueue 5` is
not dropped — the source's `enqueue` has no closed-check, so the item is
pushed onto the internal buffer and retained there. -/
theorem c4_counterexample :
    (InMemoryQueue.close ({} : InMemoryQueue Nat)).1.isClosed = true ∧
    ((InMemoryQueue.close ({} : InMemoryQueue Nat)).1.enqueue 5).1.items = [5] := by
  exact ⟨rfl, rfl⟩

/-- Claim C4, amended: `close()` resolves every pending dequeue waiter
with "no event"; after `close()` an `enqueue(item)` performs no
resolution and the item is never delivered to any dequeuer (`dequeue`
returns "no event" once closed) — although the item is retained in the
internal buffer; and a second `close()` leaves the queue in exactly the
state of the first and resolves nothing. -/
theorem c4_close_semantics {T : Type} (q : InMemoryQueue T) (item : T) :
    ((q.close).2 = q.pendingDequeuePromises.map (fun wid => (wid, none))) ∧
    (((q.close).1.enqueue item).2 = []) ∧
    (∀ wid, ((((q.close).1.enqueue item).1).dequeue wid).2 = .returnedNone) ∧
    ((q.close).1.close = ((q.close).1, [])) := by
  refine ⟨rfl, rfl, fun wid => rfl, rfl⟩

/-! ## C5 — `tasks/get` dispatch -/

/-- Claim C5 evaluation at the failing input: `A2AServer.registerHandlers`
registers no handler for `tasks/get`, so a `tasks/get` request is
answered by the JSON-RPC dispatcher's MethodNotFound error (code -32601)
instead of the Task / TaskNotFound (-32001) behavior the claim states. -/
theorem c5_tasks_get_method_not_found :
    (registeredMethods.contains "tasks/get" = false) ∧
    (∀ reqId : String,
      jsonRpcHandleRequest registeredMethods "tasks/get" reqId =
        .response { id := reqId, error := some methodNotFoundResponseError }) ∧
    methodNotFoundResponseError.code = -32601 ∧
    methodNotFoundResponseError.code ≠ -32001 := by
  refine ⟨by decide, fun reqId => ?_, rfl, by decide⟩
  simp [jsonRpcHandleRequest, registeredMethods]

/-! ## Helper lemmas about the Task Stream -/

/-- `setOrUpdateTask` installs the task it builds as the current task. -/
theorem setOrUpdateTask_currentTask (cx : AgentExecutionContext)
    (p : Option AgentTaskParams) (st : TaskState) (tid : Option String)
    (now fT fM : String) :
    ((cx.setOrUpdateTask p st tid now fT fM).2).currentTask =
      some (cx.setOrUpdateTask p st tid now fT fM).1 := rfl

/-- The task built by `setOrUpdateTask` is in the requested state. -/
theorem setOrUpdateTask_state (cx : AgentExecutionContext)
    (p : Option AgentTaskParams) (st : TaskState) (tid : Option String)
    (now fT fM : String) :
    (cx.setOrUpdateTask p st tid now fT fM).1.status.state = st := rfl

/-- `_sendTaskStatusUpdate` does not touch the context. -/
theorem sendTaskStatusUpdate_cx (s : AgentTaskStream) :
    (s.sendTaskStatusUpdate).cx = s.cx := by
  unfold AgentTaskStream.sendTaskStatusUpdate
  cases s.cx.currentTask <;> rfl

/-- `_terminateIfPendingOrFinalState` does not touch the context. -/
theorem terminateIfPendingOrFinalState_cx (s : AgentTaskStream) :
    (s.terminateIfPendingOrFinalState).cx = s.cx := by
  unfold AgentTaskStream.terminateIfPendingOrFinalState
  cases s.cx.currentTask with
  | none => rfl
  | some t => dsimp only; split <;> rfl

/-- When the current task is pending or final, the terminate check closes
the stream. -/
theorem terminateIfPendingOrFinalState_closed (s : AgentTaskStream) (t : Task)
    (h : s.cx.currentTask = some t)
    (hp : (isPendingTaskState t.status.state || isFinalTaskState t.status.state) = true) :
    (s.terminateIfPendingOrFinalState).closed = true := by
  unfold AgentTaskStream.terminateIfPendingOrFinalState
  rw [h]
  simp [hp]

/-- On a closed stream, every producer operation fails with the
terminated-stream error (all of them call `_ensureOpen` first). -/
theorem closedStreamOpsError (s : AgentTaskStream) (hclosed : s.closed = true) :
    ∀ (op : ProducerOp) (now fT fM : String),
      runProducerOp op s now fT fM = .error "Task stream already terminated." := by
  intro op now fT fM
  cases op <;>
    simp [runProducerOp, AgentTaskStream.writeArtifact, AgentTaskStream.start,
      AgentTaskStream.complete, AgentTaskStream.reject,
      AgentTaskStream.authRequired, AgentTaskStream.inputRequired,
      AgentTaskStream.transitionAndSend, AgentTaskStream.ensureOpen, hclosed,
      Bind.bind, Except.bind]

/-- Every successful producer operation returns a stream that has passed
through the terminate check last. -/
theorem runProducerOp_ok_shape (op : ProducerOp) (s s₂ : AgentTaskStream)
    (now fT fM : String) (h : runProducerOp op s now fT fM = .ok s₂) :
    ∃ y : AgentTaskStream, s₂ = y.terminateIfPendingOrFinalState := by
  cases op <;>
    simp only [runProducerOp, AgentTaskStream.writeArtifact, AgentTaskStream.start,
      AgentTaskStream.complete, AgentTaskStream.reject,
      AgentTaskStream.authRequired, AgentTaskStream.inputRequired,
      AgentTaskStream.transitionAndSend, AgentTaskStream.ensureOpen,
      Bind.bind, Except.bind, Pure.pure, Except.pure] at h <;>
    (repeat' split at h) <;>
    first
      | (simp only [Except.ok.injEq] at h; exact ⟨_, h.symm⟩)
      | exact Except.noConfusion h

/-- The task built by `_createOrUpdateTask` is in the requested state. -/
theorem createOrUpdateTask_state (cx : AgentExecutionContext)
    (p : Option AgentTaskParams) (st : TaskState) (tid : Option String)
    (now fT fM : String) :
    (cx.createOrUpdateTask p st tid now fT fM).status.state = st := rfl

/-- `working` is neither pending nor final. -/
theorem working_not_pending_final :
    isPendingTaskState .working = false ∧ isFinalTaskState .working = false :=
  ⟨rfl, rfl⟩

/-- `writeArtifact` on a task already in `working`: exactly the
artifact-update event is appended, and nothing else changes. -/
theorem writeArtifact_eq_working (s : AgentTaskStream) (params : AgentArtifactParams)
    (now fT fM : String) (task : Task)
    (hopen : s.closed = false) (htask : s.cx.currentTask = some task)
    (hw : task.status.state = .working) :
    s.writeArtifact params true now fT fM =
      .ok { s with streamQueue := s.streamQueue ++
        [.artifactUpdate task.id s.cx.id params.artifact params.append
          params.lastChunk params.artifact.metadata] } := by
  simp only [AgentTaskStream.writeArtifact, AgentTaskStream.ensureOpen, hopen,
    Bind.bind, Except.bind, Pure.pure, Except.pure, if_neg, Bool.false_eq_true,
    ite_false, htask, hw, ne_eq, not_true_eq_false]
  simp [AgentTaskStream.terminateIfPendingOrFinalState, htask, hw,
    isPendingTaskState, isFinalTaskState]

/-- `writeArtifact` on a task not in `working` (with the status flag
set): the task is moved to `working` and a status-update event precedes
the artifact-update event on the queue. -/
theorem writeArtifact_eq_notWorking (s : AgentTaskStream) (params : AgentArtifactParams)
    (now fT fM : String) (task : Task)
    (hopen : s.closed = false) (htask : s.cx.currentTask = some task)
    (hw : task.status.state ≠ .working) :
    s.writeArtifact params true now fT fM =
      .ok { closed := s.closed
            cx := (s.cx.setOrUpdateTask (some {}) .working none now fT fM).2
            streamQueue := s.streamQueue ++
              [.statusUpdate (s.cx.setOrUpdateTask (some {}) .working none now fT fM).1.id
                  false
                  (s.cx.setOrUpdateTask (some {}) .working none now fT fM).1.contextId
                  (s.cx.setOrUpdateTask (some {}) .working none now fT fM).1.status,
               .artifactUpdate task.id s.cx.id params.artifact params.append
                  params.lastChunk params.artifact.metadata] } := by
  simp only [AgentTaskStream.writeArtifact, AgentTaskStream.ensureOpen, hopen,
    Bind.bind, Except.bind, Pure.pure, Except.pure, htask, hw, ne_eq,
    not_false_iff, ite_true, Bool.false_eq_true, if_false]
  simp only [AgentTaskStream.sendTaskStatusUpdate,
    AgentTaskStream.terminateIfPendingOrFinalState,
    AgentExecutionContext.setOrUpdateTask,
    createOrUpdateTask_state, working_not_pending_final.1,
    working_not_pending_final.2, Bool.or_self, Bool.false_eq_true, if_false,
    List.append_assoc, List.cons_append, List.nil_append, List.singleton_append]

/-! ## C7 — `writeArtifact` event emission -/

/-- Claim C7: a successful `writeArtifact` (with the default
`sendTaskStatusUpdate = true`) enqueues exactly one artifact-update
event, preceded by a status-update event iff the task's state was not
already `working` at call time. -/
theorem c7_writeArtifact_events (s : AgentTaskStream) (params : AgentArtifactParams)
    (now fT fM : String) (task : Task)
    (hopen : s.closed = false) (htask : s.cx.currentTask = some task) :
    ∃ s' au, s.writeArtifact params true now fT fM = .ok s' ∧
      isArtifactUpdateEvent au = true ∧
      ((task.status.state = .working ∧ s'.streamQueue = s.streamQueue ++ [au]) ∨
       (task.status.state ≠ .working ∧ ∃ su, isStatusUpdateEvent su = true ∧
         s'.streamQueue = s.streamQueue ++ [su, au])) := by
  by_cases hw : task.status.state = .working
  · exact ⟨_, .artifactUpdate task.id s.cx.id params.artifact params.append
        params.lastChunk params.artifact.metadata,
      writeArtifact_eq_working s params now fT fM task hopen htask hw,
      rfl, Or.inl ⟨hw, rfl⟩⟩
  · exact ⟨_, .artifactUpdate task.id s.cx.id params.artifact params.append
        params.lastChunk params.artifact.metadata,
      writeArtifact_eq_notWorking s params now fT fM task hopen htask hw,
      rfl, Or.inr ⟨hw,
        .statusUpdate (s.cx.setOrUpdateTask (some {}) .working none now fT fM).1.id
          false
          (s.cx.setOrUpdateTask (some {}) .working none now fT fM).1.contextId
          (s.cx.setOrUpdateTask (some {}) .working none now fT fM).1.status,
        rfl, rfl⟩⟩

/-- An open task stream over `exContext` (its task is in `working`). -/
def exStreamWorking : AgentTaskStream :=
  { closed := false, cx := exContext, streamQueue := [] }

/-- Witness for C7 at a concrete open stream whose task is `working`. -/
theorem c7_writeArtifact_events_witness :
    ∃ s' au, exStreamWorking.writeArtifact { artifact := exArtifactA } true
        "2025-01-01T00:00:01Z" "fT" "fM" = .ok s' ∧
      isArtifactUpdateEvent au = true ∧
      ((exTaskWorking.status.state = .working ∧
          s'.streamQueue = exStreamWorking.streamQueue ++ [au]) ∨
       (exTaskWorking.status.state ≠ .working ∧ ∃ su, isStatusUpdateEvent su = true ∧
          s'.streamQueue = exStreamWorking.streamQueue ++ [su, au])) :=
  c7_writeArtifact_events exStreamWorking { artifact := exArtifactA }
    "2025-01-01T00:00:01Z" "fT" "fM" exTaskWorking rfl rfl

/-! ## C9 — terminated streams reject further producer calls -/

/-- Claim C9: `complete` on an open stream closes it, and every producer
operation on the resulting stream — in particular a second `complete` —
fails with the terminated-stream error; more generally, any producer
operation that leaves the task in a pending or final state closes the
stream, after which every producer call fails the same way. -/
theorem c9_stream_termination (s : AgentTaskStream) (p : AgentTaskParams)
    (now fT fM : String) (hopen : s.closed = false) :
    (∃ s', s.complete p now fT fM = .ok s' ∧ s'.closed = true ∧
      ∀ (op : ProducerOp) (n2 f2 g2 : String),
        runProducerOp op s' n2 f2 g2 = .error "Task stream already terminated.") ∧
    (∀ (op : ProducerOp) (s₁ s₂ : AgentTaskStream) (n1 f1 g1 : String) (t' : Task),
      runProducerOp op s₁ n1 f1 g1 = .ok s₂ →
      s₂.cx.currentTask = some t' →
      (isPendingTaskState t'.status.state || isFinalTaskState t'.status.state) = true →
      s₂.closed = true ∧
      ∀ (op2 : ProducerOp) (n2 f2 g2 : String),
        runProducerOp op2 s₂ n2 f2 g2 = .error "Task stream already terminated.") := by
  constructor
  · have hcalc : s.complete p now fT fM = .ok
        (({ s with cx := (s.cx.setOrUpdateTask (some p) .completed none now fT fM).2
            : AgentTaskStream }).sendTaskStatusUpdate.terminateIfPendingOrFinalState) := by
      simp only [AgentTaskStream.complete, AgentTaskStream.transitionAndSend,
        AgentTaskStream.ensureOpen, hopen, Bind.bind, Except.bind, Pure.pure,
        Except.pure, Bool.false_eq_true, if_false]
    have hcx : (({ s with cx := (s.cx.setOrUpdateTask (some p) .completed none now fT fM).2
        : AgentTaskStream }).sendTaskStatusUpdate).cx.currentTask =
        some (s.cx.setOrUpdateTask (some p) .completed none now fT fM).1 := by
      rw [sendTaskStatusUpdate_cx]
      exact setOrUpdateTask_currentTask _ _ _ _ _ _ _
    have hclosed := terminateIfPendingOrFinalState_closed _ _ hcx
      (by rw [setOrUpdateTask_state]; rfl)
    exact ⟨_, hcalc, hclosed,
      fun op n2 f2 g2 => closedStreamOpsError _ hclosed op n2 f2 g2⟩
  · intro op s₁ s₂ n1 f1 g1 t' hok htask hp
    obtain ⟨y, rfl⟩ := runProducerOp_ok_shape op s₁ s₂ n1 f1 g1 hok
    have hycx : y.cx.currentTask = some t' := by
      rw [← terminateIfPendingOrFinalState_cx y]; exact htask
    have hclosed := terminateIfPendingOrFinalState_closed y t' hycx hp
    exact ⟨hclosed, fun op2 n2 f2 g2 => closedStreamOpsError _ hclosed op2 n2 f2 g2⟩

/-- Witness for C9 at a concrete open stream. -/
theorem c9_stream_termination_witness :
    (∃ s', exStreamWorking.complete {} "t9" "f9" "g9" = .ok s' ∧ s'.closed = true ∧
      ∀ (op : ProducerOp) (n2 f2 g2 : String),
        runProducerOp op s' n2 f2 g2 = .error "Task stream already terminated.") ∧
    (∀ (op : ProducerOp) (s₁ s₂ : AgentTaskStream) (n1 f1 g1 : String) (t' : Task),
      runProducerOp op s₁ n1 f1 g1 = .ok s₂ →
      s₂.cx.currentTask = some t' →
      (isPendingTaskState t'.status.state || isFinalTaskState t'.status.state) = true →
      s₂.closed = true ∧
      ∀ (op2 : ProducerOp) (n2 f2 g2 : String),
        runProducerOp op2 s₂ n2 f2 g2 = .error "Task stream already terminated.") :=
  c9_stream_termination exStreamWorking {} "t9" "f9" "g9" rfl

/-! ## Helper lemmas about the consumer model -/

/-- The primary consumer yields exactly the broadcast events, in order. -/
theorem runConsume_fst (acts : List ConsumerAction) (ts : List (Nat × Tapper)) :
    (runConsume acts ts).1 = broadcastEvents acts := by
  induction acts generalizing ts with
  | nil => rfl
  | cons a rest ih =>
    cases a with
    | deliver e =>
      by_cases he : isEndOfStream e = true
      · simp [runConsume, broadcastEvents, he]
      · simp only [Bool.not_eq_true] at he
        simp [runConsume, broadcastEvents, he, ih]
    | tapJoin k => simp [runConsume, broadcastEvents, ih]

/-- A queue trace of non-sentinel events followed by the sentinel
broadcasts exactly the non-sentinel prefix. -/
theorem broadcastEvents_deliver (pre : List StreamEvent) (eos : StreamEvent)
    (hpre : ∀ e ∈ pre, isEndOfStream e = false)
    (heos : isEndOfStream eos = true) :
    broadcastEvents ((pre ++ [eos]).map .deliver) = pre := by
  induction pre with
  | nil => simp [broadcastEvents, heos]
  | cons e rest ih =>
    have he : isEndOfStream e = false := hpre e (by simp)
    have hrest : ∀ x ∈ rest, isEndOfStream x = false :=
      fun x hx => hpre x (by simp [hx])
    simp only [List.cons_append, List.map_cons, broadcastEvents, he,
      Bool.false_eq_true, if_false, List.append_eq]
    rw [ih hrest]

/-- With no tapper and a deliver-only trace, the final tapper set is
empty. -/
theorem runConsume_snd_nil (evs : List StreamEvent) :
    (runConsume (evs.map .deliver) []).2 = [] := by
  induction evs with
  | nil => rfl
  | cons e rest ih =>
    by_cases he : isEndOfStream e = true
    · simp [runConsume, he]
    · simp only [Bool.not_eq_true] at he
      simp [runConsume, he, ih]

/-! ## C1 — `message/send` stream branch: `consume()` is never iterated -/

/-- A task distinct from `exTaskWorking`, in `submitted` state. -/
def exTaskOther : Task :=
  { id := "task-2", contextId := "ctx-1", artifacts := []
    status := { state := .submitted, timestamp := "2025-01-01T00:00:00Z" }
    metadata := [] }

/-- A matching stream result for `exStreamWorking`. -/
def exStreamResult : StreamResult :=
  { taskStream := exStreamWorking, currentTask := exTaskWorking }

/-- A concrete artifact-update event. -/
def exArtifactEvent : StreamEvent :=
  .artifactUpdate "task-1" "ctx-1" exArtifactA false false none

/-- A concrete end-of-stream sentinel. -/
def exEndOfStream : StreamEvent := .endOfStream (some "task-1") (some "ctx-1")

/-- Claim C1 evaluation at the failing input: a `message/send` whose
agent execution returns the matching Stream result `exStreamResult`, with
no consumer registered, while the Task Stream enqueues one artifact-update
followed by the end-of-stream sentinel.  The handler responds with the
initial Task and registers a fresh consumer, but — since the bare
`consumer.consume()` call only creates an async generator that nothing on
this path ever iterates — the registered consumer remains in its initial
state: `consuming = false` and `finished = false`, and no queued event is
dequeued.  The last conjunct shows what the claim demands would require:
only a *driven* `consume()` run over the queue's trace consumes the
event, reaches the sentinel, and finishes with the tapper set cleared —
a run the `message/send` path never performs. -/
theorem c1_consume_generator_never_iterated :
    ((handleMessageSendStreamResult "req-1" {} exStreamResult).1 =
      { id := "req-1", result := some (.task exTaskWorking) }) ∧
    ((handleMessageSendStreamResult "req-1" {} exStreamResult).2.getConsumer
        "task-1" =
      some { tappers := [], consuming := false, finished := false }) ∧
    (TaskStreamConsumer.consume
        { tappers := [], consuming := false, finished := false }
        (([exArtifactEvent] ++ [exEndOfStream]).map .deliver) =
      ({ tappers := [], consuming := false, finished := true },
        [exArtifactEvent], [])) := by
  refine ⟨?_, ?_, ?_⟩ <;> rfl

/-! ## C10 — `message/stream` performs no task-mismatch check -/

/-- Claim C10: when the agent returns a Stream result whose stream task
id differs from `currentTask.id`, the `message/stream` handler still
yields the initial Task frame and forwards every consumed event as a
result frame — no frame on this path carries an error, in particular not
InvalidAgentResponse (-32006) — whereas the `message/send` handler on the
same input responds with the InvalidAgentResponse (-32006) task-mismatch
error. -/
theorem c10_messageStream_no_mismatch_check (reqId : String)
    (mgr : TaskStreamManager) (res : StreamResult) (t : Task)
    (acts : List ConsumerAction) (tid : Nat)
    (htask : res.taskStream.cx.currentTask = some t)
    (hmismatch : t.id ≠ res.currentTask.id)
    (hno : mgr.getConsumer t.id = none) :
    ((handleMessageStreamStreamResult reqId mgr res acts tid).1 =
      { id := reqId, result := some (.task res.currentTask) } ::
        (broadcastEvents acts).map
          (fun e => { id := reqId, result := some (.event e) })) ∧
    (∀ f ∈ (handleMessageStreamStreamResult reqId mgr res acts tid).1,
      f.error = none) ∧
    (handleMessageSendStreamResult reqId mgr res =
      ({ id := reqId,
         error := some (invalidAgentResponseError
           (some "Task mismatch. The task in stream does not match the current task")) },
        mgr)) ∧
    (invalidAgentResponseError
      (some "Task mismatch. The task in stream does not match the current task")).code
        = -32006 := by
  have hget : res.taskStream.getTask = .ok t := by
    simp [AgentTaskStream.getTask, htask]
  have hframes : (handleMessageStreamStreamResult reqId mgr res acts tid).1 =
      { id := reqId, result := some (.task res.currentTask) } ::
        (broadcastEvents acts).map
          (fun e => { id := reqId, result := some (.event e) }) := by
    unfold handleMessageStreamStreamResult
    rw [hget]
    simp only [hno]
    unfold TaskStreamConsumer.consume
    simp only [Bool.false_eq_true, if_false, Bool.or_self]
    rw [show (runConsume acts []).1 = broadcastEvents acts from runConsume_fst acts []]
  refine ⟨hframes, ?_, ?_, rfl⟩
  · intro f hf
    rw [hframes] at hf
    rcases List.mem_cons.mp hf with h | h
    · rw [h]
    · obtain ⟨e, _, he⟩ := List.mem_map.mp h
      rw [← he]
  · unfold handleMessageSendStreamResult
    rw [hget]
    simp [hmismatch]

/-- Witness for C10: a stream over the `task-1` context returned together
with the distinct `currentTask` `exTaskOther` (id `task-2`). -/
theorem c10_messageStream_no_mismatch_check_witness :
    ((handleMessageStreamStreamResult "req-2" {}
        { taskStream := exStreamWorking, currentTask := exTaskOther }
        [.deliver exArtifactEvent] 0).1 =
      { id := "req-2", result := some (.task exTaskOther) } ::
        (broadcastEvents [.deliver exArtifactEvent]).map
          (fun e => { id := "req-2", result := some (.event e) })) ∧
    (∀ f ∈ (handleMessageStreamStreamResult "req-2" {}
        { taskStream := exStreamWorking, currentTask := exTaskOther }
        [.deliver exArtifactEvent] 0).1, f.error = none) ∧
    (handleMessageSendStreamResult "req-2" {}
        { taskStream := exStreamWorking, currentTask := exTaskOther } =
      ({ id := "req-2",
         error := some (invalidAgentResponseError
           (some "Task mismatch. The task in stream does not match the current task")) },
        {})) ∧
    (invalidAgentResponseError
      (some "Task mismatch. The task in stream does not match the current task")).code
        = -32006 :=
  c10_messageStream_no_mismatch_check "req-2" {}
    { taskStream := exStreamWorking, currentTask := exTaskOther }
    exTaskWorking [.deliver exArtifactEvent] 0 rfl (by decide) rfl

/-! ## C6 — live-only broadcast to the primary consumer and tappers -/

end A2ALite
